import Mathlib

/-!
Verification of the `FlutterBridge` JSON-RPC adapter
(`src/python_bridge/flutter_bridge.py`).

The bridge reads newline-delimited JSON-RPC requests, dispatches them to
handler methods, and writes one JSON response line per processed request.
We embed the decoded-frame level of the protocol: an input line is either
blank, malformed JSON, or a decoded JSON value; responses are JSON values
built exactly as `_send_result` / `_send_error` build them.

External collaborators (the identity provider `Identity`, the encrypted
`KeyStore`, and the `ContactManager`) are not part of this repository's
source tree; following the spec's collaborator interfaces they are modelled
by an oracle structure `Ext` supplying their results, and every collaborator
invocation is recorded as an `Event` so that claims about call ordering and
side effects can be stated.
-/

namespace FlutterBridge

/-- JSON values as produced by `json.loads`: null, booleans, numbers
(modelled as integers; no claim depends on non-integer numerics), strings,
arrays, and objects (Python dicts, represented as association lists with
distinct keys). -/
inductive Json where
  | null : Json
  | bool (b : Bool) : Json
  | num (n : Int) : Json
  | str (s : String) : Json
  | arr (xs : List Json) : Json
  | obj (fs : List (String × Json)) : Json

/-- First-match lookup in a JSON object's field list (Python `dict`
lookup; the field list of an `obj` models an already-deduplicated dict). -/
def lookupField : List (String × Json) → String → Option Json
  | [], _ => none
  | (k, v) :: rest, key => if k = key then some v else lookupField rest key

/-- Python truthiness (`if not x`) of a decoded JSON value: `None`, `False`,
`0`, `""`, `[]` and `{}` are falsy, everything else truthy. -/
def pyTruthy : Json → Bool
  | .null => false
  | .bool b => b
  | .num n => n != 0
  | .str s => s != ""
  | .arr xs => !xs.isEmpty
  | .obj fs => !fs.isEmpty

/-- The Python type name of a decoded JSON value, as it appears in
`TypeError` / `AttributeError` messages. -/
def pyTypeName : Json → String
  | .null => "NoneType"
  | .bool _ => "bool"
  | .num _ => "int"
  | .str _ => "str"
  | .arr _ => "list"
  | .obj _ => "dict"

/-- Python `str()` of a decoded JSON value, as interpolated by f-strings
(only scalars reach an f-string in the bridge; containers are rendered
structurally and never appear in a proved message). -/
def pyStr : Json → String
  | .null => "None"
  | .bool true => "True"
  | .bool false => "False"
  | .num n => toString n
  | .str s => s
  | .arr _ => "[...]"
  | .obj _ => "\x7b...\x7d"

/-- `x.get(key, default)` on a decoded JSON value: succeeds on objects,
raises `AttributeError` on every other type (Python dict method access). -/
def pyGet (j : Json) (key : String) (default : Json) : Except String Json :=
  match j with
  | .obj fs => .ok ((lookupField fs key).getD default)
  | _ => .error ("\x27" ++ pyTypeName j ++ "\x27 object has no attribute \x27get\x27")

/-- `x[key]` with a string key on a decoded JSON value: succeeds on objects
holding the key, raises `KeyError` on objects missing it, and `TypeError`
on non-objects. -/
def pySub (j : Json) (key : String) : Except String Json :=
  match j with
  | .obj fs =>
    match lookupField fs key with
    | some v => .ok v
    | none => .error ("\x27" ++ key ++ "\x27")
  | _ => .error (pyTypeName j ++ " is not subscriptable with str key")

/-- A Python dict key must be hashable: decoded JSON arrays (lists) and
objects (dicts) are unhashable, so `self._methods.get(method)` raises
`TypeError` on them. -/
def unhashable : Json → Bool
  | .arr _ => true
  | .obj _ => true
  | _ => false

/-- An identity as exposed by the external identity provider: a public key
and a fingerprint, both hex strings (spec section 6 collaborator
interface). -/
structure Identity where
  public_key_hex : String
  fingerprint_hex : String
deriving DecidableEq

/-- A collaborator invocation observable from the bridge: each constructor
records one call into the identity provider, the keystore, or the contact
store. -/
inductive Event where
  | identityGenerate : Event
  | identityFromPk : Event
  | keystoreCtor : Event
  | keystoreSave : Event
  | keystoreLoad : Event
  | contactsCtor : Event
  | contactsAdd : Event
  | contactsRemove : Event
  | contactsVerify : Event
  | contactsList : Event
deriving DecidableEq

/-- The bridge's session state: the fields set in `FlutterBridge.__init__`.
`genCount` / `uuidCount` are model bookkeeping indexing the oracle's streams
of generated identities and uuids; they are not session state of the
bridge. -/
structure BridgeState where
  _identity : Option Identity
  _contacts : Option Unit
  _relay_client : Option Unit
  _tor_manager : Option Unit
  _cover_traffic : Option Unit
  _running : Bool
  genCount : Nat
  uuidCount : Nat

/-- The state established by `FlutterBridge.__init__`: every collaborator
handle `None`, `_running = True`. -/
def initState : BridgeState :=
  { _identity := none, _contacts := none, _relay_client := none,
    _tor_manager := none, _cover_traffic := none, _running := true,
    genCount := 0, uuidCount := 0 }

/-- Modelled from the spec: the external collaborators (identity provider,
encrypted keystore, contact store) and stdlib sources of nondeterminism
(`uuid.uuid4`, `json.loads` of import data), none of which live in this
repository's source tree. Each field gives the outcome the external world
returns for a call: `Option String` is `some msg` when the call raises,
`Except String` carries either the raised message or the returned value;
contacts are modelled by their `to_dict()` serializations. -/
structure Ext where
  gen_identity : Nat → Identity
  keystore_save : Identity → Json → Option String
  keystore_load : Json → Except String Identity
  from_public_key_hex : Json → Except String Identity
  json_loads : String → Except String Json
  contact_add : Json → Json → Json → Json → Except String Json
  contact_remove : Json → Option String
  contact_verify : Json → Option String
  contact_list_all : Except String (List Json)
  uuid4 : Nat → String

/-- The outcome of running one handler: the Python return value or the
message of the raised exception, the session state after the call (partial
mutations before a raise persist), and the collaborator calls made. -/
abbrev HOut := Except String Json × BridgeState × List Event

/-- `FlutterBridge._generate_identity`: calls `Identity.generate()` first,
then validates the passphrase, then constructs the keystore and saves, then
replaces the loaded identity. -/
def _generate_identity (ext : Ext) (s : BridgeState) (params : Json) : HOut :=
  let identity := ext.gen_identity s.genCount
  let s := { s with genCount := s.genCount + 1 }
  match pyGet params "passphrase" (Json.str "") with
  | .error m => (.error m, s, [Event.identityGenerate])
  | .ok passphrase =>
    if !pyTruthy passphrase then
      (.error "Passphrase is required", s, [Event.identityGenerate])
    else
      match ext.keystore_save identity passphrase with
      | some m => (.error m, s,
          [Event.identityGenerate, Event.keystoreCtor, Event.keystoreSave])
      | none =>
        (.ok (Json.obj [("fingerprint", .str identity.fingerprint_hex),
                        ("public_key", .str identity.public_key_hex),
                        ("is_loaded", .bool true)]),
         { s with _identity := some identity },
         [Event.identityGenerate, Event.keystoreCtor, Event.keystoreSave])

/-- `FlutterBridge._load_identity`: validates the passphrase, then
constructs the keystore and loads, then replaces the loaded identity. -/
def _load_identity (ext : Ext) (s : BridgeState) (params : Json) : HOut :=
  match pyGet params "passphrase" (Json.str "") with
  | .error m => (.error m, s, [])
  | .ok passphrase =>
    if !pyTruthy passphrase then
      (.error "Passphrase is required", s, [])
    else
      match ext.keystore_load passphrase with
      | .error m => (.error m, s, [Event.keystoreCtor, Event.keystoreLoad])
      | .ok identity =>
        (.ok (Json.obj [("fingerprint", .str identity.fingerprint_hex),
                        ("public_key", .str identity.public_key_hex),
                        ("is_loaded", .bool true)]),
         { s with _identity := some identity },
         [Event.keystoreCtor, Event.keystoreLoad])

mutual

/-- Serialization of a JSON value to one line of text, modelling
`json.dumps` (restricted to strings needing no escaping, which is all the
bridge ever serializes into `export_data`). -/
def jsonDump : Json → String
  | .null => "null"
  | .bool true => "true"
  | .bool false => "false"
  | .num n => toString n
  | .str s => "\x22" ++ s ++ "\x22"
  | .arr xs => "[" ++ jsonDumpArr xs ++ "]"
  | .obj fs => "\x7b" ++ jsonDumpFields fs ++ "\x7d"

/-- Comma-joined serialization of an array's elements. -/
def jsonDumpArr : List Json → String
  | [] => ""
  | [x] => jsonDump x
  | x :: y :: rest => jsonDump x ++ ", " ++ jsonDumpArr (y :: rest)

/-- Comma-joined serialization of an object's fields. -/
def jsonDumpFields : List (String × Json) → String
  | [] => ""
  | [(k, v)] => "\x22" ++ k ++ "\x22: " ++ jsonDump v
  | (k, v) :: kv :: rest =>
      "\x22" ++ k ++ "\x22: " ++ jsonDump v ++ ", " ++ jsonDumpFields (kv :: rest)

end

/-- `FlutterBridge._export_identity`: requires a loaded identity; returns
its public data serialized with `json.dumps`. -/
def _export_identity (s : BridgeState) : HOut :=
  match s._identity with
  | none => (.error "No identity loaded", s, [])
  | some identity =>
    (.ok (Json.obj [("export_data", .str (jsonDump (Json.obj
        [("public_key", .str identity.public_key_hex),
         ("fingerprint", .str identity.fingerprint_hex)])))]),
     s, [])

/-- `FlutterBridge._import_identity`: validates both parameters, parses
the import data with `json.loads`, indexes `data["public_key"]`, delegates to
`Identity.from_public_key_hex`, then replaces the loaded identity. -/
def _import_identity (ext : Ext) (s : BridgeState) (params : Json) : HOut :=
  match pyGet params "import_data" (Json.str "") with
  | .error m => (.error m, s, [])
  | .ok import_data =>
    match pyGet params "passphrase" (Json.str "") with
    | .error m => (.error m, s, [])
    | .ok passphrase =>
      if !pyTruthy import_data || !pyTruthy passphrase then
        (.error "Import data and passphrase required", s, [])
      else
        match import_data with
        | .str sd =>
          match ext.json_loads sd with
          | .error m => (.error m, s, [])
          | .ok data =>
            match pySub data "public_key" with
            | .error m => (.error m, s, [])
            | .ok pk =>
              match ext.from_public_key_hex pk with
              | .error m => (.error m, s, [Event.identityFromPk])
              | .ok identity =>
                (.ok (Json.obj [("fingerprint", .str identity.fingerprint_hex),
                                ("public_key", .str identity.public_key_hex),
                                ("is_loaded", .bool true)]),
                 { s with _identity := some identity },
                 [Event.identityFromPk])
        | other =>
          (.error ("the JSON object must be str, bytes or bytearray, not "
              ++ pyTypeName other), s, [])

/-- `FlutterBridge._add_contact`: constructs the contact store on first use
(mutating `_contacts`) before reading any parameter, then reads `label`,
`public_key`, `onion_address`, `mailbox_id` in order, then calls
`ContactManager.add` and returns the contact's dict. -/
def _add_contact (ext : Ext) (s : BridgeState) (params : Json) : HOut :=
  let (s, ev) :=
    match s._contacts with
    | none => ({ s with _contacts := some () }, [Event.contactsCtor])
    | some _ => (s, ([] : List Event))
  match pySub params "label" with
  | .error m => (.error m, s, ev)
  | .ok label =>
    match pySub params "public_key" with
    | .error m => (.error m, s, ev)
    | .ok public_key =>
      match pyGet params "onion_address" (Json.str "") with
      | .error m => (.error m, s, ev)
      | .ok onion_address =>
        match pyGet params "mailbox_id" (Json.str "") with
        | .error m => (.error m, s, ev)
        | .ok mailbox_id =>
          match ext.contact_add label public_key onion_address mailbox_id with
          | .error m => (.error m, s, ev ++ [Event.contactsAdd])
          | .ok contact => (.ok contact, s, ev ++ [Event.contactsAdd])

/-- `FlutterBridge._remove_contact`: requires an initialized contact store,
reads `contact_id`, delegates to `ContactManager.remove`. -/
def _remove_contact (ext : Ext) (s : BridgeState) (params : Json) : HOut :=
  match s._contacts with
  | none => (.error "Contacts not initialized", s, [])
  | some _ =>
    match pySub params "contact_id" with
    | .error m => (.error m, s, [])
    | .ok contact_id =>
      match ext.contact_remove contact_id with
      | some m => (.error m, s, [Event.contactsRemove])
      | none => (.ok (Json.obj [("success", .bool true)]), s, [Event.contactsRemove])

/-- `FlutterBridge._list_contacts`: constructs the contact store on first
use, then returns all contacts' dicts. -/
def _list_contacts (ext : Ext) (s : BridgeState) : HOut :=
  let (s, ev) :=
    match s._contacts with
    | none => ({ s with _contacts := some () }, [Event.contactsCtor])
    | some _ => (s, ([] : List Event))
  match ext.contact_list_all with
  | .error m => (.error m, s, ev ++ [Event.contactsList])
  | .ok contacts =>
    (.ok (Json.obj [("contacts", .arr contacts)]), s, ev ++ [Event.contactsList])

/-- `FlutterBridge._verify_contact`: requires an initialized contact store,
reads `contact_id`, delegates to `ContactManager.verify`. -/
def _verify_contact (ext : Ext) (s : BridgeState) (params : Json) : HOut :=
  match s._contacts with
  | none => (.error "Contacts not initialized", s, [])
  | some _ =>
    match pySub params "contact_id" with
    | .error m => (.error m, s, [])
    | .ok contact_id =>
      match ext.contact_verify contact_id with
      | some m => (.error m, s, [Event.contactsVerify])
      | none => (.ok (Json.obj [("success", .bool true)]), s, [Event.contactsVerify])

/-- `FlutterBridge._send_message`: requires a loaded identity, reads
`contact_id` and `text`, draws a fresh uuid, and returns the echo result;
no collaborator is consulted and no session field is written. -/
def _send_message (ext : Ext) (s : BridgeState) (params : Json) : HOut :=
  match s._identity with
  | none => (.error "No identity loaded", s, [])
  | some _ =>
    match pySub params "contact_id" with
    | .error m => (.error m, s, [])
    | .ok contact_id =>
      match pySub params "text" with
      | .error m => (.error m, s, [])
      | .ok text =>
        let message_id := ext.uuid4 s.uuidCount
        (.ok (Json.obj [("id", .str message_id),
                        ("contact_id", contact_id),
                        ("is_outgoing", .bool true),
                        ("type", .str "text"),
                        ("text_content", text),
                        ("delivery_status", .str "sent"),
                        ("sequence_index", .num 0)]),
         { s with uuidCount := s.uuidCount + 1 }, [])

/-- `FlutterBridge._send_voice_message`: requires a loaded identity, draws
the uuid before reading `contact_id` (evaluated inside the result dict
literal), and returns the echo result. -/
def _send_voice_message (ext : Ext) (s : BridgeState) (params : Json) : HOut :=
  match s._identity with
  | none => (.error "No identity loaded", s, [])
  | some _ =>
    let message_id := ext.uuid4 s.uuidCount
    let s := { s with uuidCount := s.uuidCount + 1 }
    match pySub params "contact_id" with
    | .error m => (.error m, s, [])
    | .ok contact_id =>
      match pyGet params "file_path" (Json.str "") with
      | .error m => (.error m, s, [])
      | .ok file_path =>
        (.ok (Json.obj [("id", .str message_id),
                        ("contact_id", contact_id),
                        ("is_outgoing", .bool true),
                        ("type", .str "voice"),
                        ("voice_data_path", file_path),
                        ("delivery_status", .str "sent"),
                        ("sequence_index", .num 0)]), s, [])

/-- `FlutterBridge._poll_mailbox`: stub, ignores params. -/
def _poll_mailbox (s : BridgeState) : HOut :=
  (.ok (Json.obj [("messages", .arr [])]), s, [])

/-- `FlutterBridge._get_messages`: stub, but reads
`params.get("contact_id", "")` before returning, so a non-dict params value
raises `AttributeError`. -/
def _get_messages (s : BridgeState) (params : Json) : HOut :=
  match pyGet params "contact_id" (Json.str "") with
  | .error m => (.error m, s, [])
  | .ok _ => (.ok (Json.obj [("messages", .arr [])]), s, [])

/-- `FlutterBridge._get_network_status`: reports connectivity derived from
the `_tor_manager` / `_cover_traffic` fields. -/
def _get_network_status (s : BridgeState) : HOut :=
  let tor_connected := s._tor_manager.isSome
  (.ok (Json.obj
    [("tor_status", .str (if tor_connected then "connected" else "disconnected")),
     ("tor_circuit_info", .null),
     ("relays", .arr []),
     ("mailbox", .null),
     ("cover_traffic_active", .bool s._cover_traffic.isSome),
     ("cover_packets_sent", .num 0),
     ("real_packets_sent", .num 0)]), s, [])

/-- `FlutterBridge._configure_relay`: stub, ignores params. -/
def _configure_relay (s : BridgeState) : HOut :=
  (.ok (Json.obj [("success", .bool true)]), s, [])

/-- `FlutterBridge._configure_mailbox`: stub, ignores params. -/
def _configure_mailbox (s : BridgeState) : HOut :=
  (.ok (Json.obj [("success", .bool true)]), s, [])

/-- `FlutterBridge._shutdown`: clears `_running` and reports success. -/
def _shutdown (s : BridgeState) : HOut :=
  (.ok (Json.obj [("success", .bool true)]), { s with _running := false }, [])

/-- The method names registered in `self._methods` (the dispatch table
built in `__init__`). -/
inductive Method where
  | generate_identity | load_identity | export_identity | import_identity
  | add_contact | remove_contact | list_contacts | verify_contact
  | send_message | send_voice_message | poll_mailbox | get_messages
  | get_network_status | configure_relay | configure_mailbox | shutdown
deriving DecidableEq

/-- The dispatch table: string keys of `self._methods`. -/
def dispatchTable : String → Option Method
  | "generate_identity" => some .generate_identity
  | "load_identity" => some .load_identity
  | "export_identity" => some .export_identity
  | "import_identity" => some .import_identity
  | "add_contact" => some .add_contact
  | "remove_contact" => some .remove_contact
  | "list_contacts" => some .list_contacts
  | "verify_contact" => some .verify_contact
  | "send_message" => some .send_message
  | "send_voice_message" => some .send_voice_message
  | "poll_mailbox" => some .poll_mailbox
  | "get_messages" => some .get_messages
  | "get_network_status" => some .get_network_status
  | "configure_relay" => some .configure_relay
  | "configure_mailbox" => some .configure_mailbox
  | "shutdown" => some .shutdown
  | _ => none

/-- `self._methods.get(method)` on the decoded `method` value: raises
`TypeError` on unhashable values (lists, dicts), otherwise looks the value
up in the table — only string keys can match. -/
def methodsGet : Json → Except String (Option Method)
  | .arr _ => .error "unhashable type: \x27list\x27"
  | .obj _ => .error "unhashable type: \x27dict\x27"
  | .str s => .ok (dispatchTable s)
  | _ => .ok none

/-- Dispatch one method call: `await handler(params)` for each entry of the
table. -/
def runHandler (m : Method) (ext : Ext) (s : BridgeState) (params : Json) : HOut :=
  match m with
  | .generate_identity => _generate_identity ext s params
  | .load_identity => _load_identity ext s params
  | .export_identity => _export_identity s
  | .import_identity => _import_identity ext s params
  | .add_contact => _add_contact ext s params
  | .remove_contact => _remove_contact ext s params
  | .list_contacts => _list_contacts ext s
  | .verify_contact => _verify_contact ext s params
  | .send_message => _send_message ext s params
  | .send_voice_message => _send_voice_message ext s params
  | .poll_mailbox => _poll_mailbox s
  | .get_messages => _get_messages s params
  | .get_network_status => _get_network_status s
  | .configure_relay => _configure_relay s
  | .configure_mailbox => _configure_mailbox s
  | .shutdown => _shutdown s

/-- `FlutterBridge._send_result`: the success response frame. -/
def send_result (request_id : Json) (result : Json) : Json :=
  Json.obj [("jsonrpc", .str "2.0"), ("id", request_id), ("result", result)]

/-- `FlutterBridge._send_error`: the error response frame. -/
def send_error (request_id : Json) (code : Int) (message : String) : Json :=
  Json.obj [("jsonrpc", .str "2.0"), ("id", request_id),
            ("error", .obj [("code", .num code), ("message", .str message)])]

/-- One input line as the run loop sees it after `line.strip()`:
whitespace-only, invalid JSON (carrying the `JSONDecodeError` text), or a
decoded JSON value. -/
inductive Line where
  | blank : Line
  | malformed (emsg : String) : Line
  | json (j : Json) : Line

/-- One iteration of the run loop body on one input line: the response
frames written and the state afterwards. A line whose decoded value is not
an object, or whose `method` value is unhashable, raises outside the
handler `try` and is only logged to stderr — no frame is written. -/
def stepFrame (ext : Ext) (s : BridgeState) (l : Line) : List Json × BridgeState :=
  match l with
  | .blank => ([], s)
  | .malformed emsg => ([send_error .null (-32700) ("Parse error: " ++ emsg)], s)
  | .json j =>
    match j with
    | .obj fs =>
      let request_id := (lookupField fs "id").getD .null
      let method := (lookupField fs "method").getD (.str "")
      let params := (lookupField fs "params").getD (.obj [])
      match methodsGet method with
      | .error _ => ([], s)
      | .ok none =>
        ([send_error request_id (-32601) ("Method not found: " ++ pyStr method)], s)
      | .ok (some m) =>
        match runHandler m ext s params with
        | (.ok result, s2, _) => ([send_result request_id result], s2)
        | (.error e, s2, _) =>
          ([send_error request_id (-32000) ("Internal error: " ++ e)], s2)
    | _ => ([], s)

/-- `FlutterBridge.run`: while `_running`, read a line (the list's head;
an exhausted list is EOF), process it, and append the responses in order. -/
def runLoop (ext : Ext) (s : BridgeState) : List Line → List Json
  | [] => []
  | l :: rest =>
    if s._running then
      let (out, s2) := stepFrame ext s l
      out ++ runLoop ext s2 rest
    else []

/-- The session states a run of the bridge can be in: the initial state,
closed under processing one more line while the loop is live. -/
inductive Reachable (ext : Ext) : BridgeState → Prop where
  | init : Reachable ext initState
  | step (s : BridgeState) (l : Line) : Reachable ext s → s._running = true →
      Reachable ext (stepFrame ext s l).2

/-- Whether a response frame carries the given top-level field. -/
def hasField (j : Json) (key : String) : Bool :=
  match j with
  | .obj fs => (lookupField fs key).isSome
  | _ => false

/-- The value of a top-level field of a response frame. -/
def getField (j : Json) (key : String) : Option Json :=
  match j with
  | .obj fs => lookupField fs key
  | _ => none

/-- A concrete oracle for witnesses: every collaborator call succeeds. -/
def ext0 : Ext :=
  { gen_identity := fun _ => { public_key_hex := "aa11", fingerprint_hex := "ff22" },
    keystore_save := fun _ _ => none,
    keystore_load := fun _ => .ok { public_key_hex := "aa11", fingerprint_hex := "ff22" },
    from_public_key_hex := fun _ => .ok { public_key_hex := "aa11", fingerprint_hex := "ff22" },
    json_loads := fun _ => .ok .null,
    contact_add := fun label public_key _ _ =>
      .ok (Json.obj [("label", label), ("public_key", public_key)]),
    contact_remove := fun _ => none,
    contact_verify := fun _ => none,
    contact_list_all := .ok [],
    uuid4 := fun n => "uuid-" ++ toString n }

/-- A run of the loop from a stopped state emits nothing. -/
lemma runLoop_not_running (ext : Ext) (s : BridgeState) (ls : List Line)
    (h : s._running = false) : runLoop ext s ls = [] := by
  cases ls <;> simp [runLoop, h]

/-- Processing a `shutdown` request clears the running flag. -/
lemma shutdown_frame_clears_running (ext : Ext) (s : BridgeState) (rid : Json) :
    ((stepFrame ext s (Line.json (Json.obj
        [("id", rid), ("method", Json.str "shutdown")]))).2)._running = false := by
  simp [stepFrame, lookupField, methodsGet, dispatchTable, runHandler, _shutdown]

/-- Claim C4: a non-JSON input line produces exactly one error response
with `id = null` and parse-error code `-32700`, and the loop then processes
the remaining lines from an unchanged state — a decode failure never
terminates the loop. -/
theorem parse_error_one_response_loop_continues (ext : Ext) (s : BridgeState)
    (emsg : String) (rest : List Line) (h : s._running = true) :
    runLoop ext s (Line.malformed emsg :: rest) =
      send_error Json.null (-32700) ("Parse error: " ++ emsg) :: runLoop ext s rest := by
  simp [runLoop, stepFrame, h]

/-- Witness for C4 at a concrete malformed line followed by a live frame. -/
theorem parse_error_one_response_loop_continues_witness :
    runLoop ext0 initState
        [Line.malformed "oops", Line.json (Json.obj [("method", Json.str "poll_mailbox")])] =
      send_error Json.null (-32700) "Parse error: oops" ::
        runLoop ext0 initState [Line.json (Json.obj [("method", Json.str "poll_mailbox")])] :=
  parse_error_one_response_loop_continues ext0 initState "oops"
    [Line.json (Json.obj [("method", Json.str "poll_mailbox")])] rfl

/-- Claim C2: a `generate_identity` request whose params object has an
empty or missing `passphrase` yields exactly the internal-error response
(code `-32000`) referencing the missing passphrase, and every session-state
field (loaded identity and all collaborator handles) is unchanged. -/
theorem generate_identity_missing_passphrase (ext : Ext) (s : BridgeState)
    (rid : Json) (pfs : List (String × Json))
    (h : lookupField pfs "passphrase" = none ∨
         lookupField pfs "passphrase" = some (Json.str "")) :
    (stepFrame ext s (Line.json (Json.obj [("id", rid),
        ("method", Json.str "generate_identity"), ("params", Json.obj pfs)]))).1 =
      [send_error rid (-32000) "Internal error: Passphrase is required"] ∧
    ((stepFrame ext s (Line.json (Json.obj [("id", rid),
        ("method", Json.str "generate_identity"), ("params", Json.obj pfs)]))).2)._identity
        = s._identity ∧
    ((stepFrame ext s (Line.json (Json.obj [("id", rid),
        ("method", Json.str "generate_identity"), ("params", Json.obj pfs)]))).2)._contacts
        = s._contacts ∧
    ((stepFrame ext s (Line.json (Json.obj [("id", rid),
        ("method", Json.str "generate_identity"), ("params", Json.obj pfs)]))).2)._relay_client
        = s._relay_client ∧
    ((stepFrame ext s (Line.json (Json.obj [("id", rid),
        ("method", Json.str "generate_identity"), ("params", Json.obj pfs)]))).2)._tor_manager
        = s._tor_manager ∧
    ((stepFrame ext s (Line.json (Json.obj [("id", rid),
        ("method", Json.str "generate_identity"), ("params", Json.obj pfs)]))).2)._cover_traffic
        = s._cover_traffic ∧
    ((stepFrame ext s (Line.json (Json.obj [("id", rid),
        ("method", Json.str "generate_identity"), ("params", Json.obj pfs)]))).2)._running
        = s._running := by
  rcases h with h | h <;>
    simp [stepFrame, lookupField, methodsGet, dispatchTable, runHandler,
      _generate_identity, pyGet, pyTruthy, h]

/-- Witness for C2: empty passphrase at the initial state. -/
theorem generate_identity_missing_passphrase_witness :
    (stepFrame ext0 initState (Line.json (Json.obj [("id", Json.num 3),
        ("method", Json.str "generate_identity"),
        ("params", Json.obj [("passphrase", Json.str "")])]))).1 =
      [send_error (Json.num 3) (-32000) "Internal error: Passphrase is required"] :=
  (generate_identity_missing_passphrase ext0 initState (Json.num 3)
    [("passphrase", Json.str "")] (Or.inr rfl)).1

/-- Claim C5 counterexample: a well-formed request whose `method` value is
a JSON array is not in the dispatch table, yet the bridge emits no response
at all (the `dict.get` lookup raises `TypeError` outside the handler
`try`), not a `-32601` error. -/
theorem method_not_found_counterexample :
    (stepFrame ext0 initState (Line.json (Json.obj
        [("id", Json.num 1), ("method", Json.arr []), ("params", Json.obj [])]))).1 = [] :=
  rfl

/-- Claim C5 (amended): for a well-formed request whose `method` value is
hashable (not an array or object) and not in the dispatch table — including
a missing `method`, which defaults to the empty string — the loop emits
exactly one error with code `-32601` whose message carries the rendered
method name, no handler runs (the state is unchanged), and the loop
continues with the remaining lines; requests with an array/object `method`
value produce no response but do not crash the loop either. -/
theorem method_not_found_error (ext : Ext) (s : BridgeState)
    (fs : List (String × Json)) (rest : List Line)
    (h1 : s._running = true)
    (h2 : methodsGet ((lookupField fs "method").getD (Json.str "")) = .ok none) :
    runLoop ext s (Line.json (Json.obj fs) :: rest) =
      send_error ((lookupField fs "id").getD Json.null) (-32601)
        ("Method not found: " ++ pyStr ((lookupField fs "method").getD (Json.str "")))
        :: runLoop ext s rest := by
  simp [runLoop, stepFrame, h1, h2]

/-- Witness for C5 at an unregistered string method. -/
theorem method_not_found_error_witness :
    runLoop ext0 initState
        [Line.json (Json.obj [("id", Json.num 1), ("method", Json.str "frobnicate"),
            ("params", Json.num 99)])] =
      send_error (Json.num 1) (-32601) "Method not found: frobnicate"
        :: runLoop ext0 initState [] :=
  method_not_found_error ext0 initState
    [("id", Json.num 1), ("method", Json.str "frobnicate"), ("params", Json.num 99)]
    [] rfl rfl

/-- Claim C8 counterexample: `get_messages` with a non-mapping params value
raises `AttributeError` (surfaced as an internal-error response), so the
stub does not return `{"messages": []}` for every params value. -/
theorem stub_handlers_counterexample :
    (runHandler Method.get_messages ext0 initState (Json.num 5)).1 =
      Except.error "\x27int\x27 object has no attribute \x27get\x27" ∧
    (stepFrame ext0 initState (Line.json (Json.obj [("id", Json.num 1),
        ("method", Json.str "get_messages"), ("params", Json.num 5)]))).1 =
      [send_error (Json.num 1) (-32000)
        "Internal error: \x27int\x27 object has no attribute \x27get\x27"] :=
  ⟨rfl, rfl⟩

/-- Claim C8 (amended): `poll_mailbox`, `configure_relay` and
`configure_mailbox` return their fixed success results for every params
value without raising; `get_messages` returns `{"messages": []}` for every
mapping params value, but raises on non-mapping params. -/
theorem stub_handlers_fixed_results (ext : Ext) (s : BridgeState) (params : Json)
    (pfs : List (String × Json)) :
    runHandler Method.poll_mailbox ext s params =
      (.ok (Json.obj [("messages", Json.arr [])]), s, []) ∧
    runHandler Method.configure_relay ext s params =
      (.ok (Json.obj [("success", Json.bool true)]), s, []) ∧
    runHandler Method.configure_mailbox ext s params =
      (.ok (Json.obj [("success", Json.bool true)]), s, []) ∧
    runHandler Method.get_messages ext s (Json.obj pfs) =
      (.ok (Json.obj [("messages", Json.arr [])]), s, []) := by
  refine ⟨rfl, rfl, rfl, ?_⟩
  simp [runHandler, _get_messages, pyGet]

/-- Unfolding of one run-loop iteration. -/
lemma runLoop_cons (ext : Ext) (s : BridgeState) (l : Line) (rest : List Line) :
    runLoop ext s (l :: rest) =
      if s._running then
        (stepFrame ext s l).1 ++ runLoop ext (stepFrame ext s l).2 rest
      else [] := rfl

/-- Every line positioned after a `shutdown` request is dead: the run over
the extended input equals the run that stops at the shutdown frame. -/
lemma runLoop_absorbs_after_shutdown (ext : Ext) (rid : Json) (post : List Line) :
    ∀ (pre : List Line) (s : BridgeState),
      runLoop ext s (pre ++ Line.json (Json.obj
          [("id", rid), ("method", Json.str "shutdown")]) :: post) =
      runLoop ext s (pre ++ [Line.json (Json.obj
          [("id", rid), ("method", Json.str "shutdown")])]) := by
  intro pre
  induction pre with
  | nil =>
    intro s
    rw [List.nil_append, List.nil_append, runLoop_cons, runLoop_cons]
    cases hr : s._running
    · simp
    · rw [if_pos rfl,
        runLoop_not_running ext _ post (shutdown_frame_clears_running ext s rid)]
      rfl
  | cons l pre ih =>
    intro s
    rw [List.cons_append, List.cons_append, runLoop_cons, runLoop_cons]
    cases hr : s._running
    · simp
    · rw [if_pos rfl, ih]
      simp

/-- Claim C7: on a live state a `shutdown` request is answered with
`{"success": true}` and no buffered frame after it is dispatched; in
general, for every input sequence the frames positioned after a shutdown
request contribute no response. -/
theorem shutdown_result_and_no_further_processing (ext : Ext) (s : BridgeState)
    (rid : Json) (pre post : List Line) (h : s._running = true) :
    runLoop ext s (Line.json (Json.obj
        [("id", rid), ("method", Json.str "shutdown")]) :: post) =
      [send_result rid (Json.obj [("success", Json.bool true)])] ∧
    runLoop ext s (pre ++ Line.json (Json.obj
        [("id", rid), ("method", Json.str "shutdown")]) :: post) =
      runLoop ext s (pre ++ [Line.json (Json.obj
        [("id", rid), ("method", Json.str "shutdown")])]) := by
  constructor
  · simp only [runLoop, h, if_true]
    rw [runLoop_not_running ext _ post (shutdown_frame_clears_running ext s rid)]
    simp [stepFrame, lookupField, methodsGet, dispatchTable, runHandler, _shutdown]
  · exact runLoop_absorbs_after_shutdown ext rid post pre s

/-- Witness for C7: a shutdown request followed by a buffered frame. -/
theorem shutdown_result_and_no_further_processing_witness :
    runLoop ext0 initState [Line.json (Json.obj
        [("id", Json.num 7), ("method", Json.str "shutdown")]),
        Line.json (Json.obj [("method", Json.str "poll_mailbox")])] =
      [send_result (Json.num 7) (Json.obj [("success", Json.bool true)])] :=
  (shutdown_result_and_no_further_processing ext0 initState (Json.num 7) []
    [Line.json (Json.obj [("method", Json.str "poll_mailbox")])] rfl).1

/-- Claim C1 counterexample: a non-empty, well-formed frame whose decoded
value is the number `5`, and one decoding to an object whose `method` value
is an object, each produce zero response frames — not exactly one. -/
theorem one_response_counterexample :
    (stepFrame ext0 initState (Line.json (Json.num 5))).1.length = 0 ∧
    (stepFrame ext0 initState (Line.json (Json.obj
        [("id", Json.num 2), ("method", Json.obj [])]))).1.length = 0 :=
  ⟨rfl, rfl⟩

/-- Claim C1 (amended): every malformed frame yields exactly one response,
an error addressed to `id = null`; every frame decoding to a JSON object
whose `method` value is hashable yields exactly one response carrying a
`result` field or an `error` field but never both and never neither, with
`id` echoed verbatim (null when absent). Frames decoding to non-object JSON
values, or to objects with an array/object `method` value, yield no
response (the failure is only logged). -/
theorem one_response_per_accepted_frame (ext : Ext) (s : BridgeState)
    (emsg : String) (fs : List (String × Json))
    (h : unhashable ((lookupField fs "method").getD (Json.str "")) = false) :
    ((stepFrame ext s (Line.malformed emsg)).1.length = 1 ∧
      ∀ r ∈ (stepFrame ext s (Line.malformed emsg)).1,
        hasField r "error" = true ∧ hasField r "result" = false ∧
        getField r "id" = some Json.null) ∧
    ((stepFrame ext s (Line.json (Json.obj fs))).1.length = 1 ∧
      ∀ r ∈ (stepFrame ext s (Line.json (Json.obj fs))).1,
        (hasField r "result" = true ↔ hasField r "error" = false) ∧
        getField r "id" = some ((lookupField fs "id").getD Json.null)) := by
  constructor
  · constructor
    · rfl
    · intro r hr
      simp only [stepFrame, List.mem_singleton] at hr
      subst hr
      simp [send_error, hasField, getField, lookupField]
  · have hm : ∃ om, methodsGet ((lookupField fs "method").getD (Json.str "")) = .ok om := by
      cases hv : (lookupField fs "method").getD (Json.str "") <;>
        simp_all [methodsGet, unhashable]
    obtain ⟨om, hm⟩ := hm
    cases om with
    | none =>
      constructor
      · simp [stepFrame, hm]
      · intro r hr
        simp only [stepFrame, hm, List.mem_singleton] at hr
        subst hr
        simp [send_error, hasField, getField, lookupField]
    | some m =>
      rcases hrun : runHandler m ext s ((lookupField fs "params").getD (Json.obj []))
        with ⟨res, s2, ev⟩
      cases res with
      | ok result =>
        constructor
        · simp [stepFrame, hm, hrun]
        · intro r hr
          simp only [stepFrame, hm, hrun, List.mem_singleton] at hr
          subst hr
          simp [send_result, hasField, getField, lookupField]
      | error e =>
        constructor
        · simp [stepFrame, hm, hrun]
        · intro r hr
          simp only [stepFrame, hm, hrun, List.mem_singleton] at hr
          subst hr
          simp [send_error, hasField, getField, lookupField]

/-- Witness for C1 at a malformed line and a concrete registered request. -/
theorem one_response_per_accepted_frame_witness :
    ((stepFrame ext0 initState (Line.malformed "bad")).1.length = 1 ∧
      ∀ r ∈ (stepFrame ext0 initState (Line.malformed "bad")).1,
        hasField r "error" = true ∧ hasField r "result" = false ∧
        getField r "id" = some Json.null) ∧
    ((stepFrame ext0 initState (Line.json (Json.obj
        [("id", Json.num 4), ("method", Json.str "poll_mailbox")]))).1.length = 1 ∧
      ∀ r ∈ (stepFrame ext0 initState (Line.json (Json.obj
          [("id", Json.num 4), ("method", Json.str "poll_mailbox")]))).1,
        (hasField r "result" = true ↔ hasField r "error" = false) ∧
        getField r "id" = some ((lookupField
          [("id", Json.num 4), ("method", Json.str "poll_mailbox")] "id").getD Json.null)) :=
  one_response_per_accepted_frame ext0 initState "bad"
    [("id", Json.num 4), ("method", Json.str "poll_mailbox")] rfl

/-- Claim C3 counterexample: with a missing passphrase,
`generate_identity` has already invoked the identity provider's `generate`
when it fails; with a missing `label`, `add_contact` has already constructed
the contact store and mutated the `_contacts` handle when it fails. -/
theorem validation_first_counterexample :
    (runHandler Method.generate_identity ext0 initState (Json.obj [])).1 =
      Except.error "Passphrase is required" ∧
    (runHandler Method.generate_identity ext0 initState (Json.obj [])).2.2 =
      [Event.identityGenerate] ∧
    (runHandler Method.add_contact ext0 initState (Json.obj [])).1 =
      Except.error "\x27label\x27" ∧
    (runHandler Method.add_contact ext0 initState (Json.obj [])).2.2 =
      [Event.contactsCtor] ∧
    ((runHandler Method.add_contact ext0 initState (Json.obj [])).2.1)._contacts =
      some () :=
  ⟨rfl, rfl, rfl, rfl, rfl⟩

/-- Claim C3 (amended): in every handler with required parameters —
`generate_identity`, `load_identity`, `import_identity`, `add_contact`
(both `label` and `public_key`), `remove_contact`, `verify_contact`,
`send_message` and `send_voice_message` — an absent required parameter
makes the call fail with a descriptive error before any keystore call and
before any contact-store add/remove/verify call, and without replacing the
loaded identity (for `remove_contact`/`verify_contact` without an
initialized store, and the send handlers without a loaded identity, the
precondition error fires even earlier); however `generate_identity`
invokes the identity provider's `generate` before validating, and
`add_contact` constructs the contact-store handle before validating. -/
theorem missing_param_descriptive_error (ext : Ext) (s : BridgeState)
    (pfs1 pfs2 pfs3 pfs4 pfs5 pfs6 pfs7 : List (String × Json)) (lbl : Json)
    (hp1 : lookupField pfs1 "passphrase" = none)
    (hp2 : lookupField pfs2 "passphrase" = none)
    (hp3 : lookupField pfs3 "import_data" = none)
    (hl4 : lookupField pfs4 "label" = none)
    (hl5 : lookupField pfs5 "label" = some lbl)
    (hpk5 : lookupField pfs5 "public_key" = none)
    (hc6 : lookupField pfs6 "contact_id" = none)
    (hc7 : lookupField pfs7 "contact_id" = none) :
    ((runHandler Method.generate_identity ext s (Json.obj pfs1)).1 =
        Except.error "Passphrase is required" ∧
      (runHandler Method.generate_identity ext s (Json.obj pfs1)).2.2 =
        [Event.identityGenerate] ∧
      ((runHandler Method.generate_identity ext s (Json.obj pfs1)).2.1)._identity =
        s._identity) ∧
    runHandler Method.load_identity ext s (Json.obj pfs2) =
      (Except.error "Passphrase is required", s, []) ∧
    runHandler Method.import_identity ext s (Json.obj pfs3) =
      (Except.error "Import data and passphrase required", s, []) ∧
    ((runHandler Method.add_contact ext s (Json.obj pfs4)).1 =
        Except.error "\x27label\x27" ∧
      Event.contactsAdd ∉ (runHandler Method.add_contact ext s (Json.obj pfs4)).2.2 ∧
      ((runHandler Method.add_contact ext s (Json.obj pfs4)).2.1)._identity =
        s._identity) ∧
    ((runHandler Method.add_contact ext s (Json.obj pfs5)).1 =
        Except.error "\x27public_key\x27" ∧
      Event.contactsAdd ∉ (runHandler Method.add_contact ext s (Json.obj pfs5)).2.2 ∧
      ((runHandler Method.add_contact ext s (Json.obj pfs5)).2.1)._identity =
        s._identity) ∧
    runHandler Method.remove_contact ext s (Json.obj pfs6) =
      (Except.error (if s._contacts.isSome then "\x27contact_id\x27"
          else "Contacts not initialized"), s, []) ∧
    runHandler Method.verify_contact ext s (Json.obj pfs6) =
      (Except.error (if s._contacts.isSome then "\x27contact_id\x27"
          else "Contacts not initialized"), s, []) ∧
    runHandler Method.send_message ext s (Json.obj pfs7) =
      (Except.error (if s._identity.isSome then "\x27contact_id\x27"
          else "No identity loaded"), s, []) ∧
    ((runHandler Method.send_voice_message ext s (Json.obj pfs7)).1 =
        Except.error (if s._identity.isSome then "\x27contact_id\x27"
          else "No identity loaded") ∧
      (runHandler Method.send_voice_message ext s (Json.obj pfs7)).2.2 = [] ∧
      ((runHandler Method.send_voice_message ext s (Json.obj pfs7)).2.1)._identity =
        s._identity ∧
      ((runHandler Method.send_voice_message ext s (Json.obj pfs7)).2.1)._contacts =
        s._contacts) := by
  refine ⟨?_, ?_, ?_, ?_, ?_, ?_, ?_, ?_, ?_⟩
  · simp [runHandler, _generate_identity, pyGet, pyTruthy, hp1]
  · simp [runHandler, _load_identity, pyGet, pyTruthy, hp2]
  · simp [runHandler, _import_identity, pyGet, pyTruthy, hp3]
  · cases hc : s._contacts <;>
      simp [runHandler, _add_contact, pySub, hl4, hc]
  · cases hc : s._contacts <;>
      simp [runHandler, _add_contact, pySub, hl5, hpk5, hc]
  · cases hc : s._contacts <;>
      simp [runHandler, _remove_contact, pySub, hc6, hc]
  · cases hc : s._contacts <;>
      simp [runHandler, _verify_contact, pySub, hc6, hc]
  · cases hi : s._identity <;>
      simp [runHandler, _send_message, pySub, hc7, hi]
  · cases hi : s._identity <;>
      simp [runHandler, _send_voice_message, pySub, hc7, hi]

/-- Witness for C3 at empty params objects (and a params object carrying
only `label` for the missing-`public_key` case) in the initial state. -/
theorem missing_param_descriptive_error_witness :
    ((runHandler Method.generate_identity ext0 initState (Json.obj [])).1 =
        Except.error "Passphrase is required" ∧
      (runHandler Method.generate_identity ext0 initState (Json.obj [])).2.2 =
        [Event.identityGenerate] ∧
      ((runHandler Method.generate_identity ext0 initState (Json.obj [])).2.1)._identity =
        initState._identity) ∧
    runHandler Method.load_identity ext0 initState (Json.obj []) =
      (Except.error "Passphrase is required", initState, []) ∧
    runHandler Method.import_identity ext0 initState (Json.obj []) =
      (Except.error "Import data and passphrase required", initState, []) ∧
    ((runHandler Method.add_contact ext0 initState (Json.obj [])).1 =
        Except.error "\x27label\x27" ∧
      Event.contactsAdd ∉ (runHandler Method.add_contact ext0 initState (Json.obj [])).2.2 ∧
      ((runHandler Method.add_contact ext0 initState (Json.obj [])).2.1)._identity =
        initState._identity) ∧
    ((runHandler Method.add_contact ext0 initState
        (Json.obj [("label", Json.str "a")])).1 =
        Except.error "\x27public_key\x27" ∧
      Event.contactsAdd ∉ (runHandler Method.add_contact ext0 initState
        (Json.obj [("label", Json.str "a")])).2.2 ∧
      ((runHandler Method.add_contact ext0 initState
        (Json.obj [("label", Json.str "a")])).2.1)._identity =
        initState._identity) ∧
    runHandler Method.remove_contact ext0 initState (Json.obj []) =
      (Except.error (if initState._contacts.isSome then "\x27contact_id\x27"
          else "Contacts not initialized"), initState, []) ∧
    runHandler Method.verify_contact ext0 initState (Json.obj []) =
      (Except.error (if initState._contacts.isSome then "\x27contact_id\x27"
          else "Contacts not initialized"), initState, []) ∧
    runHandler Method.send_message ext0 initState (Json.obj []) =
      (Except.error (if initState._identity.isSome then "\x27contact_id\x27"
          else "No identity loaded"), initState, []) ∧
    ((runHandler Method.send_voice_message ext0 initState (Json.obj [])).1 =
        Except.error (if initState._identity.isSome then "\x27contact_id\x27"
          else "No identity loaded") ∧
      (runHandler Method.send_voice_message ext0 initState (Json.obj [])).2.2 = [] ∧
      ((runHandler Method.send_voice_message ext0 initState (Json.obj [])).2.1)._identity =
        initState._identity ∧
      ((runHandler Method.send_voice_message ext0 initState (Json.obj [])).2.1)._contacts =
        initState._contacts) :=
  missing_param_descriptive_error ext0 initState [] [] [] []
    [("label", Json.str "a")] [] [] (Json.str "a")
    rfl rfl rfl rfl rfl rfl rfl rfl

/-- Claim C6: from a live state, a successful `generate_identity` followed
immediately by `export_identity` returns export data that is the JSON
serialization of an object whose `public_key` and `fingerprint` are exactly
the `public_key` and `fingerprint` returned by that `generate_identity`
call. -/
theorem generate_export_roundtrip (ext : Ext) (s : BridgeState)
    (rid1 rid2 pass : Json)
    (hrun : s._running = true) (hpass : pyTruthy pass = true)
    (hsave : ext.keystore_save (ext.gen_identity s.genCount) pass = none) :
    runLoop ext s
      [Line.json (Json.obj [("id", rid1), ("method", Json.str "generate_identity"),
          ("params", Json.obj [("passphrase", pass)])]),
       Line.json (Json.obj [("id", rid2), ("method", Json.str "export_identity")])] =
      [send_result rid1 (Json.obj
        [("fingerprint", Json.str (ext.gen_identity s.genCount).fingerprint_hex),
         ("public_key", Json.str (ext.gen_identity s.genCount).public_key_hex),
         ("is_loaded", Json.bool true)]),
       send_result rid2 (Json.obj [("export_data", Json.str (jsonDump (Json.obj
         [("public_key", Json.str (ext.gen_identity s.genCount).public_key_hex),
          ("fingerprint", Json.str (ext.gen_identity s.genCount).fingerprint_hex)])))])] := by
  simp [runLoop, stepFrame, lookupField, methodsGet, dispatchTable, runHandler,
    _generate_identity, _export_identity, pyGet, hrun, hpass, hsave]

/-- Witness for C6 at the initial state with passphrase `"x"`. -/
theorem generate_export_roundtrip_witness :
    runLoop ext0 initState
      [Line.json (Json.obj [("id", Json.num 1), ("method", Json.str "generate_identity"),
          ("params", Json.obj [("passphrase", Json.str "x")])]),
       Line.json (Json.obj [("id", Json.num 2), ("method", Json.str "export_identity")])] =
      [send_result (Json.num 1) (Json.obj
        [("fingerprint", Json.str (ext0.gen_identity 0).fingerprint_hex),
         ("public_key", Json.str (ext0.gen_identity 0).public_key_hex),
         ("is_loaded", Json.bool true)]),
       send_result (Json.num 2) (Json.obj [("export_data", Json.str (jsonDump (Json.obj
         [("public_key", Json.str (ext0.gen_identity 0).public_key_hex),
          ("fingerprint", Json.str (ext0.gen_identity 0).fingerprint_hex)])))])] :=
  generate_export_roundtrip ext0 initState (Json.num 1) (Json.num 2) (Json.str "x")
    rfl rfl rfl

/-- No handler writes the `_tor_manager` or `_cover_traffic` fields. -/
lemma runHandler_preserves_network (m : Method) (ext : Ext) (s : BridgeState)
    (p : Json) :
    ((runHandler m ext s p).2.1)._tor_manager = s._tor_manager ∧
    ((runHandler m ext s p).2.1)._cover_traffic = s._cover_traffic := by
  cases m <;>
    simp only [runHandler, _generate_identity, _load_identity, _export_identity,
      _import_identity, _add_contact, _remove_contact, _list_contacts,
      _verify_contact, _send_message, _send_voice_message, _poll_mailbox,
      _get_messages, _get_network_status, _configure_relay, _configure_mailbox,
      _shutdown] <;>
    (repeat' split) <;> simp_all

/-- Processing any line leaves `_tor_manager` and `_cover_traffic`
untouched. -/
lemma stepFrame_preserves_network (ext : Ext) (s : BridgeState) (l : Line) :
    ((stepFrame ext s l).2)._tor_manager = s._tor_manager ∧
    ((stepFrame ext s l).2)._cover_traffic = s._cover_traffic := by
  cases l with
  | blank => exact ⟨rfl, rfl⟩
  | malformed emsg => exact ⟨rfl, rfl⟩
  | json j =>
    cases j with
    | obj fs =>
      simp only [stepFrame]
      cases hm : methodsGet ((lookupField fs "method").getD (Json.str "")) with
      | error e => simp
      | ok om =>
        cases om with
        | none => simp
        | some m =>
          have hp := runHandler_preserves_network m ext s
            ((lookupField fs "params").getD (Json.obj []))
          rcases hr : runHandler m ext s ((lookupField fs "params").getD (Json.obj []))
            with ⟨res, s2, ev⟩
          rw [hr] at hp
          simp only [hr]
          cases res <;> simpa using hp
    | null => exact ⟨rfl, rfl⟩
    | bool b => exact ⟨rfl, rfl⟩
    | num n => exact ⟨rfl, rfl⟩
    | str st => exact ⟨rfl, rfl⟩
    | arr xs => exact ⟨rfl, rfl⟩

/-- In every reachable state the network collaborator handles are still
`None`, as initialized by `__init__`. -/
lemma reachable_network_none (ext : Ext) (s : BridgeState) (h : Reachable ext s) :
    s._tor_manager = none ∧ s._cover_traffic = none := by
  induction h with
  | init => exact ⟨rfl, rfl⟩
  | step s l _ _ ih =>
    have hp := stepFrame_preserves_network ext s l
    exact ⟨hp.1.trans ih.1, hp.2.trans ih.2⟩

/-- Claim C9: in every reachable session state the `_tor_manager` and
`_cover_traffic` fields are still `None`, so `get_network_status` returns
the constant disconnected status with no relays, null mailbox/circuit info,
inactive cover traffic and zero packet counts, without mutating state or
calling any collaborator. -/
theorem network_status_constant (ext : Ext) (s : BridgeState) (p : Json)
    (h : Reachable ext s) :
    s._tor_manager = none ∧ s._cover_traffic = none ∧
    runHandler Method.get_network_status ext s p =
      (.ok (Json.obj
        [("tor_status", Json.str "disconnected"),
         ("tor_circuit_info", Json.null),
         ("relays", Json.arr []),
         ("mailbox", Json.null),
         ("cover_traffic_active", Json.bool false),
         ("cover_packets_sent", Json.num 0),
         ("real_packets_sent", Json.num 0)]), s, []) := by
  obtain ⟨h1, h2⟩ := reachable_network_none ext s h
  refine ⟨h1, h2, ?_⟩
  simp [runHandler, _get_network_status, h1, h2]

/-- Witness for C9 at the initial state. -/
theorem network_status_constant_witness :
    initState._tor_manager = none ∧ initState._cover_traffic = none ∧
    runHandler Method.get_network_status ext0 initState (Json.obj []) =
      (.ok (Json.obj
        [("tor_status", Json.str "disconnected"),
         ("tor_circuit_info", Json.null),
         ("relays", Json.arr []),
         ("mailbox", Json.null),
         ("cover_traffic_active", Json.bool false),
         ("cover_packets_sent", Json.num 0),
         ("real_packets_sent", Json.num 0)]), initState, []) :=
  network_status_constant ext0 initState (Json.obj []) Reachable.init

/-- Claim C10: with an identity loaded, `send_message` succeeds for every
`contact_id` and `text` value without any collaborator call (the event
trace is empty): it returns the fresh uuid as message id, echoes the
unvalidated `contact_id`, reports `delivery_status` `"sent"`, and the only
state change is the model's uuid-stream counter — every session field is
as before. -/
theorem send_message_echo_without_collaborators (ext : Ext) (s : BridgeState)
    (idn : Identity) (pfs : List (String × Json)) (cid txt : Json)
    (hid : s._identity = some idn)
    (hc : lookupField pfs "contact_id" = some cid)
    (ht : lookupField pfs "text" = some txt) :
    runHandler Method.send_message ext s (Json.obj pfs) =
      (.ok (Json.obj
        [("id", Json.str (ext.uuid4 s.uuidCount)),
         ("contact_id", cid),
         ("is_outgoing", Json.bool true),
         ("type", Json.str "text"),
         ("text_content", txt),
         ("delivery_status", Json.str "sent"),
         ("sequence_index", Json.num 0)]),
       { s with uuidCount := s.uuidCount + 1 }, []) := by
  simp [runHandler, _send_message, pySub, hid, hc, ht]

/-- Witness for C10 with a loaded identity and arbitrary echo values. -/
theorem send_message_echo_without_collaborators_witness :
    runHandler Method.send_message ext0
        { initState with _identity := some (ext0.gen_identity 0) }
        (Json.obj [("contact_id", Json.str "whoever"), ("text", Json.str "hi")]) =
      (.ok (Json.obj
        [("id", Json.str (ext0.uuid4 0)),
         ("contact_id", Json.str "whoever"),
         ("is_outgoing", Json.bool true),
         ("type", Json.str "text"),
         ("text_content", Json.str "hi"),
         ("delivery_status", Json.str "sent"),
         ("sequence_index", Json.num 0)]),
       { { initState with _identity := some (ext0.gen_identity 0) } with
           uuidCount := 0 + 1 }, []) :=
  send_message_echo_without_collaborators ext0
    { initState with _identity := some (ext0.gen_identity 0) }
    (ext0.gen_identity 0)
    [("contact_id", Json.str "whoever"), ("text", Json.str "hi")]
    (Json.str "whoever") (Json.str "hi") rfl rfl rfl

end FlutterBridge
